import Mathlib

/-!
Shallow embedding of the pzlog logging facade (src/pzlog/log.go).

The source file consists of two near-duplicate parts of package pzlog
(the spec's design notes call them the "nested" and the "flattened"
configuration shape).  The first part embeds the lumberjack rotation
settings in the configuration and selects the encoder by format name;
it is embedded below in namespace `Pzlog.V1`.  The second part uses a
flattened configuration and fixed encoders; it is embedded in namespace
`Pzlog.V2`.  External collaborators (zap/zapcore, lumberjack, gin, Go's
time formatting) are modelled as the capabilities the source exercises:
a zapcore core is an (encoder, write target, minimum level) triple, a
tee is a list of such cores, and delivering a record to a core set
yields one (encoder, write target) encode-and-write event per core
whose level enabler admits the record.
-/

namespace Pzlog

/-- zapcore.Level: the ordered severity enum used by zap
(Debug = -1, Info = 0, Warn = 1, Error = 2, DPanic = 3, Panic = 4, Fatal = 5). -/
inductive Level where
  | debug
  | info
  | warn
  | error
  | dpanic
  | panic
  | fatal
deriving DecidableEq

/-- Numeric value of a zapcore.Level. -/
def Level.toInt : Level → Int
  | .debug => -1
  | .info => 0
  | .warn => 1
  | .error => 2
  | .dpanic => 3
  | .panic => 4
  | .fatal => 5

/-- zapcore.Level.Enabled: a level enabler `l` admits a record level `lvl`
iff `lvl >= l`. -/
def Level.enabled (l lvl : Level) : Bool :=
  l.toInt ≤ lvl.toInt

/-- zapcore.Level.CapitalString. -/
def Level.capitalString : Level → String
  | .debug => "DEBUG"
  | .info => "INFO"
  | .warn => "WARN"
  | .error => "ERROR"
  | .dpanic => "DPANIC"
  | .panic => "PANIC"
  | .fatal => "FATAL"

/-- A wall-clock instant, broken into the calendar components that the
layouts appearing in the source reference (Go time.Time, restricted to
the fields the used layout tokens read). -/
structure GoTime where
  year : Nat
  month : Nat
  day : Nat
  hour : Nat
  minute : Nat
  second : Nat
deriving DecidableEq

/-- Left-pad the decimal rendering of `n` with zeros to width `w`. -/
def padNat (w n : Nat) : String :=
  let s := toString n
  String.mk (List.replicate (w - s.length) '0') ++ s

/-- Interpreter for the Go reference-time layout tokens that occur in this
repository's layout strings ("2006" year, "01" month, "02" day, "15" hour,
"04" minute, "05" second); any other character is copied verbatim.  This
models Go's time.Time.Format for the layouts used here. -/
def goFormatAux (t : GoTime) : List Char → String
  | '2' :: '0' :: '0' :: '6' :: rest => padNat 4 t.year ++ goFormatAux t rest
  | '0' :: '1' :: rest => padNat 2 t.month ++ goFormatAux t rest
  | '0' :: '2' :: rest => padNat 2 t.day ++ goFormatAux t rest
  | '1' :: '5' :: rest => padNat 2 t.hour ++ goFormatAux t rest
  | '0' :: '4' :: rest => padNat 2 t.minute ++ goFormatAux t rest
  | '0' :: '5' :: rest => padNat 2 t.second ++ goFormatAux t rest
  | c :: rest => String.singleton c ++ goFormatAux t rest
  | [] => ""

/-- Go t.Format(layout) for the layout tokens used in this repository. -/
def goFormat (layout : String) (t : GoTime) : String :=
  goFormatAux t layout.data

/-- The package constant logTmFmt = "2006-01-02 15:04:05" (shared by both
parts of the source). -/
def logTmFmt : String := "2006-01-02 15:04:05"

/-- Go strings.ToLower, for the ASCII level names this package compares
(a structurally recursive executable model of string lower-casing). -/
def strToLower (s : String) : String :=
  String.mk (s.data.map Char.toLower)

/-- The package map `m` from level names to zap levels (its values are the
zap level constants; the `interface` typing of the Go map is irrelevant
to its use, which is name lookup). -/
def m : List (String × Level) :=
  [("debug", .debug), ("info", .info), ("warn", .warn), ("error", .error),
   ("dpanic", .dpanic), ("panic", .panic), ("fatal", .fatal)]

/-- zapcore.EntryCaller: a call site (file, line). -/
structure EntryCaller where
  File : String
  Line : Nat
deriving DecidableEq

/-- zapcore.EntryCaller.TrimmedPath: the last two path components of the
file, plus the line number. -/
def EntryCaller.TrimmedPath (c : EntryCaller) : String :=
  let parts := c.File.splitOn "/"
  String.intercalate "/" (parts.drop (parts.length - 2)) ++ ":" ++ toString c.Line

/-- Which zapcore duration encoder an encoder configuration names. -/
inductive DurationEncoder where
  | secondsDuration
  | stringDuration
deriving DecidableEq

/-- zapcore.SecondsDurationEncoder (floating seconds). -/
def SecondsDurationEncoder : DurationEncoder := .secondsDuration

/-- zapcore.StringDurationEncoder. -/
def StringDurationEncoder : DurationEncoder := .stringDuration

/-- zapcore.OmitKey. -/
def OmitKey : String := ""

/-- zapcore.DefaultLineEnding. -/
def DefaultLineEnding : String := "\n"

/-- zapcore.EncoderConfig, restricted to the fields the source sets. -/
structure EncoderConfig where
  TimeKey : String
  LevelKey : String
  NameKey : String
  CallerKey : String
  FunctionKey : String
  MessageKey : String
  StacktraceKey : String
  LineEnding : String
  EncodeLevel : Level → String
  EncodeTime : GoTime → String
  EncodeDuration : DurationEncoder
  EncodeCaller : EntryCaller → String

/-- The two zapcore encoder families the source instantiates. -/
inductive EncoderKind where
  | console
  | json
deriving DecidableEq

/-- A zapcore.Encoder: an encoder family applied to an encoder
configuration. -/
structure Encoder where
  kind : EncoderKind
  cfg : EncoderConfig

/-- zapcore.NewConsoleEncoder (the human-readable layout). -/
def NewConsoleEncoder (cfg : EncoderConfig) : Encoder :=
  { kind := .console, cfg := cfg }

/-- zapcore.NewJSONEncoder (the machine-readable layout). -/
def NewJSONEncoder (cfg : EncoderConfig) : Encoder :=
  { kind := .json, cfg := cfg }

/-- zapcore.CapitalLevelEncoder. -/
def CapitalLevelEncoder : Level → String := Level.capitalString

/-- zapcore.ISO8601TimeEncoder, up to the sub-second and zone suffix
(no claim depends on its output). -/
def ISO8601TimeEncoder : GoTime → String :=
  fun t => goFormat "2006-01-02T15:04:05" t

/-- zapcore.ShortCallerEncoder. -/
def ShortCallerEncoder : EntryCaller → String := EntryCaller.TrimmedPath

/-- zap.NewDevelopmentEncoderConfig (the zap library value used by the
flattened part's getConsoleEncoder). -/
def NewDevelopmentEncoderConfig : EncoderConfig :=
  { TimeKey := "T"
    LevelKey := "L"
    NameKey := "N"
    CallerKey := "C"
    FunctionKey := OmitKey
    MessageKey := "M"
    StacktraceKey := "S"
    LineEnding := DefaultLineEnding
    EncodeLevel := CapitalLevelEncoder
    EncodeTime := ISO8601TimeEncoder
    EncodeDuration := StringDurationEncoder
    EncodeCaller := ShortCallerEncoder }

/-- lumberjack.Logger, restricted to the rotation fields the source sets. -/
structure LumberjackLogger where
  Filename : String
  MaxSize : Int
  MaxBackups : Int
  MaxAge : Int
deriving DecidableEq

/-- A write target: where encoded bytes go.  `lumberjackSink` is
zapcore.AddSync of a lumberjack rotating-file logger, `stdout` is
os.Stdout, and `locked` is zapcore.Lock of another target. -/
inductive WriteTarget where
  | lumberjackSink (l : LumberjackLogger)
  | stdout
  | locked (w : WriteTarget)
deriving DecidableEq

/-- zapcore.AddSync applied to a lumberjack logger. -/
def AddSync (l : LumberjackLogger) : WriteTarget := .lumberjackSink l

/-- zapcore.Lock. -/
def Lock (w : WriteTarget) : WriteTarget := .locked w

/-- One zapcore ioCore: encoder, write target and level enabler, as built
by zapcore.NewCore. -/
structure IoCore where
  enc : Encoder
  out : WriteTarget
  lvl : Level

/-- A zapcore core set: zapcore.NewCore yields a one-element set and
zapcore.NewTee concatenates sets. -/
def NewCore (enc : Encoder) (out : WriteTarget) (lvl : Level) : List IoCore :=
  [{ enc := enc, out := out, lvl := lvl }]

/-- zapcore.NewTee. -/
def NewTee (cores : List (List IoCore)) : List IoCore :=
  cores.flatten

/-- Delivering a record of severity `lvl` to a core set: zapcore first
checks each core's level enabler and only then encodes and writes, so
each returned (encoder, write target) pair is one encode-and-write
event; a dropped record produces no pair (it is never encoded). -/
def deliverTo (core : List IoCore) (lvl : Level) : List (Encoder × WriteTarget) :=
  (core.filter fun ic => Level.enabled ic.lvl lvl).map fun ic => (ic.enc, ic.out)

/-- The zap.Logger produced by zap.New: the composed core set, plus
whether zap.AddCaller was requested (caller capture). -/
structure Logger where
  core : List IoCore
  addCaller : Bool

/-- The switch body of getLevelEnabler (identical in both parts of the
source), factored out as a function of the lower-cased level name. -/
def levelChain (level : String) : Level :=
  if level = "debug" then .debug
  else if level = "info" then .info
  else if level = "warn" then .warn
  else if level = "error" then .error
  else if level = "dpanic" then .dpanic
  else if level = "panic" then .panic
  else if level = "fatal" then .fatal
  else .info

namespace V1

/-- PzlogConfig of the first (nested) part of the source: the lumberjack
rotation settings are an embedded struct whose fields Go promotes
(config.Filename reads config.Logger.Filename, and so on). -/
structure PzlogConfig where
  Logger : LumberjackLogger
  TimeFormat : String
  LogLevel : String
  PrintConsole : Bool
  Encoder : String
deriving DecidableEq

/-- NewDefaultConfig of the nested part. -/
def NewDefaultConfig : PzlogConfig :=
  { Logger :=
      { Filename := "./logs/pzlog.log"
        MaxSize := 100
        MaxBackups := 10
        MaxAge := 30 }
    TimeFormat := ""
    LogLevel := ""
    PrintConsole := false
    Encoder := "" }

/-- The first `if` of the nested part's setDefaultValue: default the
(promoted) file name when empty. -/
def defaultFilename (config : PzlogConfig) : PzlogConfig :=
  if config.Logger.Filename = "" then
    { config with Logger := { config.Logger with Filename := "./logs/pzlog.log" } }
  else config

/-- The second `if`: default the time format when empty. -/
def defaultTimeFormat (config : PzlogConfig) : PzlogConfig :=
  if config.TimeFormat = "" then { config with TimeFormat := logTmFmt } else config

/-- The third `if`: default a negative max size to 100. -/
def defaultMaxSize (config : PzlogConfig) : PzlogConfig :=
  if config.Logger.MaxSize < 0 then
    { config with Logger := { config.Logger with MaxSize := 100 } }
  else config

/-- The fourth `if`: default a negative max backup count to 10. -/
def defaultMaxBackups (config : PzlogConfig) : PzlogConfig :=
  if config.Logger.MaxBackups < 0 then
    { config with Logger := { config.Logger with MaxBackups := 10 } }
  else config

/-- The fifth `if`: default a negative max age to 30. -/
def defaultMaxAge (config : PzlogConfig) : PzlogConfig :=
  if config.Logger.MaxAge < 0 then
    { config with Logger := { config.Logger with MaxAge := 30 } }
  else config

/-- The sixth `if`: default an empty encoder format name to "json". -/
def defaultEncoder (config : PzlogConfig) : PzlogConfig :=
  if config.Encoder = "" then { config with Encoder := "json" } else config

/-- The final check of setDefaultValue: replace the level name by "info"
when it is empty or not a key of `m` (looked up lower-cased). -/
def defaultLogLevel (config : PzlogConfig) : PzlogConfig :=
  let ok := (m.lookup (strToLower config.LogLevel)).isSome
  if config.LogLevel = "" ∨ ok = false then { config with LogLevel := "info" }
  else config

/-- setDefaultValue of the nested part: the source mutates the passed
configuration field by field through the sequence of `if` statements
embedded above, in this order. -/
def setDefaultValue (config : PzlogConfig) : PzlogConfig :=
  defaultLogLevel (defaultEncoder (defaultMaxAge (defaultMaxBackups
    (defaultMaxSize (defaultTimeFormat (defaultFilename config))))))

/-- cEncodeLevel of the nested part (appends the capitalized level name). -/
def cEncodeLevel (level : Level) : String :=
  level.capitalString

/-- cEncodeTime of the nested part: appends t.Format(logTmFmt).  Note it
formats with the package constant, not with the configuration's
TimeFormat field. -/
def cEncodeTime (t : GoTime) : String :=
  goFormat logTmFmt t

/-- cEncodeCaller of the nested part (appends caller.TrimmedPath()). -/
def cEncodeCaller (caller : EntryCaller) : String :=
  caller.TrimmedPath

/-- getEncoder of the nested part: "console" selects the console encoder,
anything else the JSON encoder; both branches build the same encoder
configuration literal (as in the source). -/
def getEncoder (types : String) : Encoder :=
  if types = "console" then
    NewConsoleEncoder
      { TimeKey := "ts"
        LevelKey := "level"
        NameKey := "logger"
        CallerKey := "caller_line"
        FunctionKey := OmitKey
        MessageKey := "msg"
        StacktraceKey := "stacktrace"
        LineEnding := DefaultLineEnding
        EncodeLevel := cEncodeLevel
        EncodeTime := cEncodeTime
        EncodeDuration := SecondsDurationEncoder
        EncodeCaller := cEncodeCaller }
  else
    NewJSONEncoder
      { TimeKey := "ts"
        LevelKey := "level"
        NameKey := "logger"
        CallerKey := "caller_line"
        FunctionKey := OmitKey
        MessageKey := "msg"
        StacktraceKey := "stacktrace"
        LineEnding := DefaultLineEnding
        EncodeLevel := cEncodeLevel
        EncodeTime := cEncodeTime
        EncodeDuration := SecondsDurationEncoder
        EncodeCaller := cEncodeCaller }

/-- getWriteSyncer of the nested part: wraps a lumberjack logger built
from the (promoted) rotation fields of the configuration. -/
def getWriteSyncer (config : PzlogConfig) : WriteTarget :=
  AddSync
    { Filename := config.Logger.Filename
      MaxSize := config.Logger.MaxSize
      MaxBackups := config.Logger.MaxBackups
      MaxAge := config.Logger.MaxAge }

/-- getLevelEnabler of the nested part: a switch over the lower-cased
configured level name, defaulting to info. -/
def getLevelEnabler (config : PzlogConfig) : Level :=
  let level := strToLower config.LogLevel
  if level = "debug" then .debug
  else if level = "info" then .info
  else if level = "warn" then .warn
  else if level = "error" then .error
  else if level = "dpanic" then .dpanic
  else if level = "panic" then .panic
  else if level = "fatal" then .fatal
  else .info

/-- GetLogger of the nested part.  A nil pointer argument is modelled by
`none`; the in-place mutation performed by setDefaultValue is modelled
by returning the final state of the configuration object alongside the
logger.  Note that when PrintConsole is set, both cores of the tee are
given the same `Encoder` (the console-specific encoder construction is
commented out in the source). -/
def GetLogger (config? : Option PzlogConfig) : Logger × PzlogConfig :=
  let config := match config? with
    | none => NewDefaultConfig
    | some c => c
  let config := setDefaultValue config
  let Encoder := getEncoder config.Encoder
  let WriteSyncer := getWriteSyncer config
  let LevelEnabler := getLevelEnabler config
  let newCore : List IoCore :=
    if config.PrintConsole then
      NewTee
        [NewCore Encoder WriteSyncer LevelEnabler,
         NewCore Encoder (Lock .stdout) LevelEnabler]
    else
      NewCore Encoder WriteSyncer LevelEnabler
  ({ core := newCore, addCaller := true }, config)

end V1

namespace V2

/-- PzlogConfig of the second (flattened) part of the source. -/
structure PzlogConfig where
  Filename : String
  TimeFormat : String
  LogLevel : String
  PrintConsole : Bool
  MaxSize : Int
  MaxBackups : Int
  MaxAge : Int
deriving DecidableEq

/-- NewDefaultConfig of the flattened part (LogLevel and PrintConsole are
left at their zero values). -/
def NewDefaultConfig : PzlogConfig :=
  { Filename := "./logs/pzlog.log"
    TimeFormat := logTmFmt
    LogLevel := ""
    PrintConsole := false
    MaxSize := 100
    MaxBackups := 10
    MaxAge := 30 }

/-- The first `if` of the flattened part's setDefaultValue: default the
file name when empty. -/
def defaultFilename (config : PzlogConfig) : PzlogConfig :=
  if config.Filename = "" then { config with Filename := "./logs/pzlog.log" }
  else config

/-- The second `if`: default the time format when empty. -/
def defaultTimeFormat (config : PzlogConfig) : PzlogConfig :=
  if config.TimeFormat = "" then { config with TimeFormat := logTmFmt } else config

/-- The third `if`: default a negative max size to 100. -/
def defaultMaxSize (config : PzlogConfig) : PzlogConfig :=
  if config.MaxSize < 0 then { config with MaxSize := 100 } else config

/-- The fourth `if`: default a negative max backup count to 10. -/
def defaultMaxBackups (config : PzlogConfig) : PzlogConfig :=
  if config.MaxBackups < 0 then { config with MaxBackups := 10 } else config

/-- The fifth `if`: default a negative max age to 30. -/
def defaultMaxAge (config : PzlogConfig) : PzlogConfig :=
  if config.MaxAge < 0 then { config with MaxAge := 30 } else config

/-- The final check: replace the level name by "info" when it is empty or
not a key of `m` (looked up lower-cased). -/
def defaultLogLevel (config : PzlogConfig) : PzlogConfig :=
  let ok := (m.lookup (strToLower config.LogLevel)).isSome
  if config.LogLevel = "" ∨ ok = false then { config with LogLevel := "info" }
  else config

/-- setDefaultValue of the flattened part (no Encoder field exists, so no
format-name defaulting happens): the source mutates the configuration
field by field through the sequence of `if` statements embedded above,
in this order. -/
def setDefaultValue (config : PzlogConfig) : PzlogConfig :=
  defaultLogLevel (defaultMaxAge (defaultMaxBackups
    (defaultMaxSize (defaultTimeFormat (defaultFilename config)))))

/-- cEncodeLevel of the flattened part (bracket-wrapped capital name). -/
def cEncodeLevel (level : Level) : String :=
  "[" ++ level.capitalString ++ "]"

/-- cEncodeTime of the flattened part: appends "[" + t.Format(logTmFmt)
+ "]".  As in the nested part, it formats with the package constant,
not with the configuration's TimeFormat field. -/
def cEncodeTime (t : GoTime) : String :=
  "[" ++ goFormat logTmFmt t ++ "]"

/-- cEncodeCaller of the flattened part (bracket-wrapped trimmed path). -/
def cEncodeCaller (caller : EntryCaller) : String :=
  "[" ++ caller.TrimmedPath ++ "]"

/-- getEncoder of the flattened part: takes no format name and always
builds a console encoder over the custom configuration (LineEnding is
two spaces in this part). -/
def getEncoder : Encoder :=
  NewConsoleEncoder
    { TimeKey := "ts"
      LevelKey := "level"
      NameKey := "logger"
      CallerKey := "caller_line"
      FunctionKey := OmitKey
      MessageKey := "msg"
      StacktraceKey := "stacktrace"
      LineEnding := "  "
      EncodeLevel := cEncodeLevel
      EncodeTime := cEncodeTime
      EncodeDuration := SecondsDurationEncoder
      EncodeCaller := cEncodeCaller }

/-- getConsoleEncoder of the flattened part: a console encoder over the
zap development encoder configuration. -/
def getConsoleEncoder : Encoder :=
  NewConsoleEncoder NewDevelopmentEncoderConfig

/-- GetWriteSyncer of the flattened part. -/
def GetWriteSyncer (config : PzlogConfig) : WriteTarget :=
  AddSync
    { Filename := config.Filename
      MaxSize := config.MaxSize
      MaxBackups := config.MaxBackups
      MaxAge := config.MaxAge }

/-- getLevelEnabler of the flattened part (same switch as the nested
part). -/
def getLevelEnabler (config : PzlogConfig) : Level :=
  let level := strToLower config.LogLevel
  if level = "debug" then .debug
  else if level = "info" then .info
  else if level = "warn" then .warn
  else if level = "error" then .error
  else if level = "dpanic" then .dpanic
  else if level = "panic" then .panic
  else if level = "fatal" then .fatal
  else .info

/-- GetLogger of the flattened part: here the file core and the console
core are built with two distinct encoders (getEncoder and
getConsoleEncoder). -/
def GetLogger (config? : Option PzlogConfig) : Logger × PzlogConfig :=
  let config := match config? with
    | none => NewDefaultConfig
    | some c => c
  let config := setDefaultValue config
  let Encoder := getEncoder
  let WriteSyncer := GetWriteSyncer config
  let LevelEnabler := getLevelEnabler config
  let ConsoleEncoder := getConsoleEncoder
  let newCore : List IoCore :=
    if config.PrintConsole then
      NewTee
        [NewCore Encoder WriteSyncer LevelEnabler,
         NewCore ConsoleEncoder (Lock .stdout) LevelEnabler]
    else
      NewCore Encoder WriteSyncer LevelEnabler
  ({ core := newCore, addCaller := true }, config)

end V2

/-! The gin request middleware (GinLogger) is textually identical in both
parts of the source; it is embedded once below.  The gin framework is an
external capability: a context exposes the request's metadata, the
response status, the accumulated errors and a Next() continuation; a
clock (in nanoseconds) is threaded through the context state so that
time.Now and time.Since are observable. -/

/-- gin error types (bit flags in gin; only Private is used here). -/
inductive GinErrorType where
  | typePrivate
  | typePublic
  | typeBind
  | typeRender
deriving DecidableEq, BEq

/-- gin.ErrorTypePrivate. -/
def ErrorTypePrivate : GinErrorType := .typePrivate

/-- One gin error: its type flag (gin Error.Type; `Type` is reserved in
Lean, hence `Typ`) and its message. -/
structure GinError where
  Typ : GinErrorType
  Err : String
deriving DecidableEq

/-- The request metadata the middleware reads (gin c.Request). -/
structure GinRequest where
  Path : String
  RawQuery : String
  Method : String
  UserAgent : String
deriving DecidableEq

/-- The gin context state visible to the middleware: the request, the
response status (c.Writer.Status()), the client address (c.ClientIP()),
the accumulated errors, and a clock in nanoseconds. -/
structure GinContext where
  Request : GinRequest
  Status : Int
  ClientIP : String
  Errors : List GinError
  now : Nat
deriving DecidableEq

/-- gin errorMsgs.ByType: the errors whose type matches. -/
def errorsByType (t : GinErrorType) (es : List GinError) : List GinError :=
  es.filter fun e => e.Typ == t

/-- gin errorMsgs.String(): each error rendered as
"Error #NN: message\n" (two-digit index, 1-based), concatenated. -/
def errorMsgsString (es : List GinError) : String :=
  String.join (es.enum.map fun p => "Error #" ++ padNat 2 (p.1 + 1) ++ ": " ++ p.2.Err ++ "\n")

/-- A zap field value as used by the middleware (zap.Int, zap.String,
zap.Duration; the duration is in nanoseconds). -/
inductive FieldValue where
  | int (i : Int)
  | str (s : String)
  | duration (d : Nat)
deriving DecidableEq

/-- One zap field: key and value. -/
structure Field where
  key : String
  value : FieldValue
deriving DecidableEq

/-- One emitted structured record: severity, message and fields. -/
structure LogEntry where
  level : Level
  msg : String
  fields : List Field
deriving DecidableEq

/-- Look up a field of a record by key. -/
def LogEntry.field (e : LogEntry) (k : String) : Option FieldValue :=
  (e.fields.find? fun f => f.key == k).map fun f => f.value

/-- GinLogger: the handler closure returned by the middleware
constructor.  `next` is the c.Next() continuation (the rest of the
request pipeline, which may mutate the context, including the clock);
the emitted records of the zap.L().Info call are returned alongside the
final context.  Start time, path and raw query are captured before the
continuation runs; status, method, client IP, user agent and errors are
read after it returns. -/
def GinLogger (next : GinContext → GinContext) (c : GinContext) : GinContext × List LogEntry :=
  let start := c.now
  let path := c.Request.Path
  let query := c.Request.RawQuery
  let c' := next c
  let cost := c'.now - start
  (c',
   [{ level := .info
      msg := path
      fields :=
        [{ key := "status", value := .int c'.Status },
         { key := "method", value := .str c'.Request.Method },
         { key := "path", value := .str path },
         { key := "query", value := .str query },
         { key := "ip", value := .str c'.ClientIP },
         { key := "user-agent", value := .str c'.Request.UserAgent },
         { key := "errors",
           value := .str (errorMsgsString (errorsByType ErrorTypePrivate c'.Errors)) },
         { key := "cost", value := .duration cost }] }])

/-! Concrete inputs used to evaluate the development on closed instances. -/

/-- A nested-shape configuration requesting console echo. -/
def c1cfgNested : V1.PzlogConfig := { V1.NewDefaultConfig with PrintConsole := true }

/-- A flattened-shape configuration requesting console echo. -/
def c1cfgFlat : V2.PzlogConfig := { V2.NewDefaultConfig with PrintConsole := true }

/-- A concrete instant: 2021-03-05 07:08:09. -/
def t2021 : GoTime := { year := 2021, month := 3, day := 5, hour := 7, minute := 8, second := 9 }

/-- A nested-shape configuration with a custom (hour-only) time format. -/
def c2cfg : V1.PzlogConfig := { V1.NewDefaultConfig with TimeFormat := "15:04:05" }

/-- A nested-shape configuration all of whose fields are already valid. -/
def c10cfg : V1.PzlogConfig :=
  { Logger := { Filename := "a.log", MaxSize := 1, MaxBackups := 2, MaxAge := 3 }
    TimeFormat := "15:04:05"
    LogLevel := "WARN"
    PrintConsole := true
    Encoder := "console" }

/-- A concrete request context. -/
def c4ctx : GinContext :=
  { Request := { Path := "/items", RawQuery := "id=5", Method := "GET", UserAgent := "curl" }
    Status := 200
    ClientIP := "1.2.3.4"
    Errors := []
    now := 0 }

/-- A concrete downstream continuation: it sets the response status,
rewrites the routed path, attaches a private error, and takes 12ms. -/
def c4next (c : GinContext) : GinContext :=
  { c with
    Status := 404
    Request := { c.Request with Path := "/mutated" }
    Errors := [{ Typ := .typePrivate, Err := "boom" }]
    now := c.now + 12000000 }

/-- The record GinLogger emits for `c4ctx` under `c4next`. -/
def c4entry : LogEntry :=
  { level := .info
    msg := "/items"
    fields :=
      [{ key := "status", value := .int 404 },
       { key := "method", value := .str "GET" },
       { key := "path", value := .str "/items" },
       { key := "query", value := .str "id=5" },
       { key := "ip", value := .str "1.2.3.4" },
       { key := "user-agent", value := .str "curl" },
       { key := "errors", value := .str "Error #01: boom\n" },
       { key := "cost", value := .duration 12000000 }] }

/-! Helper lemmas about the normalization step and the level registry. -/

/-- The level switch agrees with lookup in the level-name map `m`,
defaulting to info. -/
theorem levelChain_lookup (u : String) :
    levelChain u = (m.lookup u).getD Level.info := by
  by_cases h1 : u = "debug"
  · subst h1; decide
  by_cases h2 : u = "info"
  · subst h2; decide
  by_cases h3 : u = "warn"
  · subst h3; decide
  by_cases h4 : u = "error"
  · subst h4; decide
  by_cases h5 : u = "dpanic"
  · subst h5; decide
  by_cases h6 : u = "panic"
  · subst h6; decide
  by_cases h7 : u = "fatal"
  · subst h7; decide
  have b1 : (u == "debug") = false := beq_eq_false_iff_ne.mpr h1
  have b2 : (u == "info") = false := beq_eq_false_iff_ne.mpr h2
  have b3 : (u == "warn") = false := beq_eq_false_iff_ne.mpr h3
  have b4 : (u == "error") = false := beq_eq_false_iff_ne.mpr h4
  have b5 : (u == "dpanic") = false := beq_eq_false_iff_ne.mpr h5
  have b6 : (u == "panic") = false := beq_eq_false_iff_ne.mpr h6
  have b7 : (u == "fatal") = false := beq_eq_false_iff_ne.mpr h7
  simp [levelChain, m, List.lookup, h1, h2, h3, h4, h5, h6, h7, b1, b2, b3, b4, b5, b6, b7]

/-- getLevelEnabler of the nested part is the level switch applied to the
lower-cased configured name. -/
theorem v1_getLevelEnabler_eq (c : V1.PzlogConfig) :
    V1.getLevelEnabler c = levelChain (strToLower c.LogLevel) := rfl

/-- getLevelEnabler of the flattened part is the level switch applied to
the lower-cased configured name. -/
theorem v2_getLevelEnabler_eq (c : V2.PzlogConfig) :
    V2.getLevelEnabler c = levelChain (strToLower c.LogLevel) := rfl

/-- Pointwise form of the nested part's file-name defaulting step. -/
theorem v1_defaultFilename_eq (c : V1.PzlogConfig) :
    V1.defaultFilename c =
      { c with Logger :=
          { c.Logger with Filename :=
              if c.Logger.Filename = "" then "./logs/pzlog.log" else c.Logger.Filename } } := by
  by_cases h : c.Logger.Filename = "" <;> simp [V1.defaultFilename, h]

/-- Pointwise form of the nested part's time-format defaulting step. -/
theorem v1_defaultTimeFormat_eq (c : V1.PzlogConfig) :
    V1.defaultTimeFormat c =
      { c with TimeFormat := if c.TimeFormat = "" then logTmFmt else c.TimeFormat } := by
  by_cases h : c.TimeFormat = "" <;> simp [V1.defaultTimeFormat, h]

/-- Pointwise form of the nested part's max-size defaulting step. -/
theorem v1_defaultMaxSize_eq (c : V1.PzlogConfig) :
    V1.defaultMaxSize c =
      { c with Logger :=
          { c.Logger with MaxSize :=
              if c.Logger.MaxSize < 0 then 100 else c.Logger.MaxSize } } := by
  by_cases h : c.Logger.MaxSize < 0 <;> simp [V1.defaultMaxSize, h]

/-- Pointwise form of the nested part's max-backups defaulting step. -/
theorem v1_defaultMaxBackups_eq (c : V1.PzlogConfig) :
    V1.defaultMaxBackups c =
      { c with Logger :=
          { c.Logger with MaxBackups :=
              if c.Logger.MaxBackups < 0 then 10 else c.Logger.MaxBackups } } := by
  by_cases h : c.Logger.MaxBackups < 0 <;> simp [V1.defaultMaxBackups, h]

/-- Pointwise form of the nested part's max-age defaulting step. -/
theorem v1_defaultMaxAge_eq (c : V1.PzlogConfig) :
    V1.defaultMaxAge c =
      { c with Logger :=
          { c.Logger with MaxAge :=
              if c.Logger.MaxAge < 0 then 30 else c.Logger.MaxAge } } := by
  by_cases h : c.Logger.MaxAge < 0 <;> simp [V1.defaultMaxAge, h]

/-- Pointwise form of the nested part's encoder-name defaulting step. -/
theorem v1_defaultEncoder_eq (c : V1.PzlogConfig) :
    V1.defaultEncoder c =
      { c with Encoder := if c.Encoder = "" then "json" else c.Encoder } := by
  by_cases h : c.Encoder = "" <;> simp [V1.defaultEncoder, h]

/-- Pointwise form of the nested part's level-name defaulting step. -/
theorem v1_defaultLogLevel_eq (c : V1.PzlogConfig) :
    V1.defaultLogLevel c =
      { c with LogLevel :=
          if c.LogLevel = "" ∨ (m.lookup (strToLower c.LogLevel)).isSome = false
          then "info" else c.LogLevel } := by
  simp only [V1.defaultLogLevel]
  by_cases h : c.LogLevel = "" ∨ (m.lookup (strToLower c.LogLevel)).isSome = false
  · rw [if_pos h, if_pos h]
  · rw [if_neg h, if_neg h]

/-- Closed form of the nested part's setDefaultValue: each field is
defaulted independently. -/
theorem v1_norm (c : V1.PzlogConfig) :
    V1.setDefaultValue c =
      { Logger :=
          { Filename := if c.Logger.Filename = "" then "./logs/pzlog.log" else c.Logger.Filename
            MaxSize := if c.Logger.MaxSize < 0 then 100 else c.Logger.MaxSize
            MaxBackups := if c.Logger.MaxBackups < 0 then 10 else c.Logger.MaxBackups
            MaxAge := if c.Logger.MaxAge < 0 then 30 else c.Logger.MaxAge }
        TimeFormat := if c.TimeFormat = "" then logTmFmt else c.TimeFormat
        LogLevel :=
          if c.LogLevel = "" ∨ (m.lookup (strToLower c.LogLevel)).isSome = false
          then "info" else c.LogLevel
        PrintConsole := c.PrintConsole
        Encoder := if c.Encoder = "" then "json" else c.Encoder } := by
  simp only [V1.setDefaultValue, v1_defaultFilename_eq, v1_defaultTimeFormat_eq,
    v1_defaultMaxSize_eq, v1_defaultMaxBackups_eq, v1_defaultMaxAge_eq,
    v1_defaultEncoder_eq, v1_defaultLogLevel_eq]

/-- Pointwise form of the flattened part's file-name defaulting step. -/
theorem v2_defaultFilename_eq (c : V2.PzlogConfig) :
    V2.defaultFilename c =
      { c with Filename := if c.Filename = "" then "./logs/pzlog.log" else c.Filename } := by
  by_cases h : c.Filename = "" <;> simp [V2.defaultFilename, h]

/-- Pointwise form of the flattened part's time-format defaulting step. -/
theorem v2_defaultTimeFormat_eq (c : V2.PzlogConfig) :
    V2.defaultTimeFormat c =
      { c with TimeFormat := if c.TimeFormat = "" then logTmFmt else c.TimeFormat } := by
  by_cases h : c.TimeFormat = "" <;> simp [V2.defaultTimeFormat, h]

/-- Pointwise form of the flattened part's max-size defaulting step. -/
theorem v2_defaultMaxSize_eq (c : V2.PzlogConfig) :
    V2.defaultMaxSize c =
      { c with MaxSize := if c.MaxSize < 0 then 100 else c.MaxSize } := by
  by_cases h : c.MaxSize < 0 <;> simp [V2.defaultMaxSize, h]

/-- Pointwise form of the flattened part's max-backups defaulting step. -/
theorem v2_defaultMaxBackups_eq (c : V2.PzlogConfig) :
    V2.defaultMaxBackups c =
      { c with MaxBackups := if c.MaxBackups < 0 then 10 else c.MaxBackups } := by
  by_cases h : c.MaxBackups < 0 <;> simp [V2.defaultMaxBackups, h]

/-- Pointwise form of the flattened part's max-age defaulting step. -/
theorem v2_defaultMaxAge_eq (c : V2.PzlogConfig) :
    V2.defaultMaxAge c =
      { c with MaxAge := if c.MaxAge < 0 then 30 else c.MaxAge } := by
  by_cases h : c.MaxAge < 0 <;> simp [V2.defaultMaxAge, h]

/-- Pointwise form of the flattened part's level-name defaulting step. -/
theorem v2_defaultLogLevel_eq (c : V2.PzlogConfig) :
    V2.defaultLogLevel c =
      { c with LogLevel :=
          if c.LogLevel = "" ∨ (m.lookup (strToLower c.LogLevel)).isSome = false
          then "info" else c.LogLevel } := by
  simp only [V2.defaultLogLevel]
  by_cases h : c.LogLevel = "" ∨ (m.lookup (strToLower c.LogLevel)).isSome = false
  · rw [if_pos h, if_pos h]
  · rw [if_neg h, if_neg h]

/-- Closed form of the flattened part's setDefaultValue. -/
theorem v2_norm (c : V2.PzlogConfig) :
    V2.setDefaultValue c =
      { Filename := if c.Filename = "" then "./logs/pzlog.log" else c.Filename
        TimeFormat := if c.TimeFormat = "" then logTmFmt else c.TimeFormat
        LogLevel :=
          if c.LogLevel = "" ∨ (m.lookup (strToLower c.LogLevel)).isSome = false
          then "info" else c.LogLevel
        PrintConsole := c.PrintConsole
        MaxSize := if c.MaxSize < 0 then 100 else c.MaxSize
        MaxBackups := if c.MaxBackups < 0 then 10 else c.MaxBackups
        MaxAge := if c.MaxAge < 0 then 30 else c.MaxAge } := by
  simp only [V2.setDefaultValue, v2_defaultFilename_eq, v2_defaultTimeFormat_eq,
    v2_defaultMaxSize_eq, v2_defaultMaxBackups_eq, v2_defaultMaxAge_eq,
    v2_defaultLogLevel_eq]

/-! The claims. -/

/-- C7: configuration normalization is idempotent.  In both parts of the
source, applying setDefaultValue to an already-normalized configuration
returns it unchanged. -/
theorem c7_normalization_idempotent (c1 : V1.PzlogConfig) (c2 : V2.PzlogConfig) :
    V1.setDefaultValue (V1.setDefaultValue c1) = V1.setDefaultValue c1
    ∧ V2.setDefaultValue (V2.setDefaultValue c2) = V2.setDefaultValue c2 := by
  constructor
  · rw [v1_norm c1, v1_norm]
    simp only [V1.PzlogConfig.mk.injEq, LumberjackLogger.mk.injEq]
    refine ⟨⟨?_, ?_, ?_, ?_⟩, ?_, ?_, ?_, ?_⟩
    · by_cases h : c1.Logger.Filename = ""
      · simp only [if_pos h, ite_self]
      · simp only [if_neg h]
    · by_cases h : c1.Logger.MaxSize < 0
      · simp only [if_pos h, ite_self]
      · simp only [if_neg h]
    · by_cases h : c1.Logger.MaxBackups < 0
      · simp only [if_pos h, ite_self]
      · simp only [if_neg h]
    · by_cases h : c1.Logger.MaxAge < 0
      · simp only [if_pos h, ite_self]
      · simp only [if_neg h]
    · by_cases h : c1.TimeFormat = ""
      · simp only [if_pos h, ite_self]
      · simp only [if_neg h]
    · by_cases h : c1.LogLevel = "" ∨ (m.lookup (strToLower c1.LogLevel)).isSome = false
      · simp only [if_pos h, ite_self]
      · simp only [if_neg h]
    · trivial
    · by_cases h : c1.Encoder = ""
      · simp only [if_pos h, ite_self]
      · simp only [if_neg h]
  · rw [v2_norm c2, v2_norm]
    simp only [V2.PzlogConfig.mk.injEq]
    refine ⟨?_, ?_, ?_, ?_, ?_, ?_, ?_⟩
    · by_cases h : c2.Filename = ""
      · simp only [if_pos h, ite_self]
      · simp only [if_neg h]
    · by_cases h : c2.TimeFormat = ""
      · simp only [if_pos h, ite_self]
      · simp only [if_neg h]
    · by_cases h : c2.LogLevel = "" ∨ (m.lookup (strToLower c2.LogLevel)).isSome = false
      · simp only [if_pos h, ite_self]
      · simp only [if_neg h]
    · trivial
    · by_cases h : c2.MaxSize < 0
      · simp only [if_pos h, ite_self]
      · simp only [if_neg h]
    · by_cases h : c2.MaxBackups < 0
      · simp only [if_pos h, ite_self]
      · simp only [if_neg h]
    · by_cases h : c2.MaxAge < 0
      · simp only [if_pos h, ite_self]
      · simp only [if_neg h]

/-- C6: normalization replaces a negative max size, max backups or max age
with the fixed defaults 100, 10 and 30 respectively, and passes any
non-negative value (in particular zero) through unchanged. -/
theorem c6_rotation_defaults (config : V1.PzlogConfig) :
    (V1.setDefaultValue config).Logger.MaxSize =
      (if config.Logger.MaxSize < 0 then 100 else config.Logger.MaxSize)
    ∧ (V1.setDefaultValue config).Logger.MaxBackups =
      (if config.Logger.MaxBackups < 0 then 10 else config.Logger.MaxBackups)
    ∧ (V1.setDefaultValue config).Logger.MaxAge =
      (if config.Logger.MaxAge < 0 then 30 else config.Logger.MaxAge) := by
  rw [v1_norm]
  exact ⟨rfl, rfl, rfl⟩

/-- C5: exactly the seven canonical names are the keys of the level
registry, and the effective minimum level after normalization is the
case-insensitive lookup of the configured name, defaulting to info for
the empty or any unrecognized name. -/
theorem c5_level_registry (cfg : V1.PzlogConfig) :
    m.map Prod.fst = ["debug", "info", "warn", "error", "dpanic", "panic", "fatal"]
    ∧ V1.getLevelEnabler (V1.setDefaultValue cfg) =
        (m.lookup (strToLower cfg.LogLevel)).getD Level.info := by
  refine ⟨rfl, ?_⟩
  rw [v1_getLevelEnabler_eq]
  by_cases h : cfg.LogLevel = "" ∨ (m.lookup (strToLower cfg.LogLevel)).isSome = false
  · have hL : (V1.setDefaultValue cfg).LogLevel = "info" := by
      rw [v1_norm]; exact if_pos h
    rw [hL]
    have hc : levelChain (strToLower "info") = Level.info := by decide
    rw [hc]
    rcases h with h | h
    · rw [h]; decide
    · have hn : m.lookup (strToLower cfg.LogLevel) = none := by
        cases hx : m.lookup (strToLower cfg.LogLevel) with
        | none => rfl
        | some l => rw [hx] at h; simp at h
      rw [hn]
      rfl
  · have hL : (V1.setDefaultValue cfg).LogLevel = cfg.LogLevel := by
      rw [v1_norm]; exact if_neg h
    rw [hL, levelChain_lookup]

/-- C3: a record whose severity is strictly below the configured minimum
is delivered to no sink and is never encoded: the list of
encode-and-write events produced by the composed core set is empty. -/
theorem c3_below_minimum_dropped (config : V1.PzlogConfig) (lvl : Level)
    (h : lvl.toInt < (V1.getLevelEnabler (V1.setDefaultValue config)).toInt) :
    deliverTo (V1.GetLogger (some config)).1.core lvl = [] := by
  have he : Level.enabled (V1.getLevelEnabler (V1.setDefaultValue config)) lvl = false := by
    simp only [Level.enabled, decide_eq_false_iff_not]
    omega
  simp only [V1.GetLogger]
  generalize V1.setDefaultValue config = s at he ⊢
  by_cases hp : s.PrintConsole <;>
    simp [hp, deliverTo, NewTee, NewCore, he]

/-- C3 witness: with the default configuration (minimum level info), a
debug record is dropped by the composed core set. -/
theorem c3_below_minimum_dropped_witness :
    Level.toInt .debug < (V1.getLevelEnabler (V1.setDefaultValue V1.NewDefaultConfig)).toInt
    ∧ deliverTo (V1.GetLogger (some V1.NewDefaultConfig)).1.core .debug = [] :=
  ⟨by decide, c3_below_minimum_dropped V1.NewDefaultConfig .debug (by decide)⟩

/-- C9: a nil configuration means "use the full default configuration",
and construction always yields a usable logger (caller capture enabled
and a non-empty core set) for every input. -/
theorem c9_nil_config_defaults :
    (V1.GetLogger none).1 = (V1.GetLogger (some V1.NewDefaultConfig)).1
    ∧ ∀ config? : Option V1.PzlogConfig,
        (V1.GetLogger config?).1.addCaller = true
        ∧ (V1.GetLogger config?).1.core ≠ [] := by
  refine ⟨rfl, ?_⟩
  intro config?
  constructor
  · cases config? <;> rfl
  · cases config? with
    | none =>
        simp only [V1.GetLogger]
        generalize V1.setDefaultValue V1.NewDefaultConfig = s
        by_cases hp : s.PrintConsole <;> simp [hp, NewTee, NewCore]
    | some c =>
        simp only [V1.GetLogger]
        generalize V1.setDefaultValue c = s
        by_cases hp : s.PrintConsole <;> simp [hp, NewTee, NewCore]

/-- C10: logger construction normalizes the caller's configuration object
in place (the post-call state of the passed object is exactly the
normalized configuration), and every field that is already valid is
left unchanged by normalization. -/
theorem c10_config_mutated_in_place (config : V1.PzlogConfig) :
    (V1.GetLogger (some config)).2 = V1.setDefaultValue config
    ∧ (config.Logger.Filename ≠ "" →
        (V1.setDefaultValue config).Logger.Filename = config.Logger.Filename)
    ∧ (config.TimeFormat ≠ "" →
        (V1.setDefaultValue config).TimeFormat = config.TimeFormat)
    ∧ (0 ≤ config.Logger.MaxSize →
        (V1.setDefaultValue config).Logger.MaxSize = config.Logger.MaxSize)
    ∧ (0 ≤ config.Logger.MaxBackups →
        (V1.setDefaultValue config).Logger.MaxBackups = config.Logger.MaxBackups)
    ∧ (0 ≤ config.Logger.MaxAge →
        (V1.setDefaultValue config).Logger.MaxAge = config.Logger.MaxAge)
    ∧ (config.Encoder ≠ "" → (V1.setDefaultValue config).Encoder = config.Encoder)
    ∧ ((m.lookup (strToLower config.LogLevel)).isSome = true →
        (V1.setDefaultValue config).LogLevel = config.LogLevel)
    ∧ (V1.setDefaultValue config).PrintConsole = config.PrintConsole := by
  refine ⟨rfl, ?_, ?_, ?_, ?_, ?_, ?_, ?_, ?_⟩
  · intro h; rw [v1_norm]; exact if_neg h
  · intro h; rw [v1_norm]; exact if_neg h
  · intro h; rw [v1_norm]; exact if_neg (not_lt.mpr h)
  · intro h; rw [v1_norm]; exact if_neg (not_lt.mpr h)
  · intro h; rw [v1_norm]; exact if_neg (not_lt.mpr h)
  · intro h; rw [v1_norm]; exact if_neg h
  · intro hs
    rw [v1_norm]
    apply if_neg
    rintro (h1 | h2)
    · rw [h1] at hs; exact absurd hs (by decide)
    · rw [hs] at h2; exact absurd h2 (by decide)
  · rw [v1_norm]

/-- C10 witness: a configuration all of whose fields are already valid is
returned unchanged field-by-field. -/
theorem c10_config_mutated_in_place_witness :
    (V1.GetLogger (some c10cfg)).2 = V1.setDefaultValue c10cfg
    ∧ (V1.setDefaultValue c10cfg).Logger.Filename = c10cfg.Logger.Filename
    ∧ (V1.setDefaultValue c10cfg).TimeFormat = c10cfg.TimeFormat
    ∧ (V1.setDefaultValue c10cfg).Logger.MaxSize = c10cfg.Logger.MaxSize
    ∧ (V1.setDefaultValue c10cfg).Logger.MaxBackups = c10cfg.Logger.MaxBackups
    ∧ (V1.setDefaultValue c10cfg).Logger.MaxAge = c10cfg.Logger.MaxAge
    ∧ (V1.setDefaultValue c10cfg).Encoder = c10cfg.Encoder
    ∧ (V1.setDefaultValue c10cfg).LogLevel = c10cfg.LogLevel
    ∧ (V1.setDefaultValue c10cfg).PrintConsole = c10cfg.PrintConsole :=
  ⟨(c10_config_mutated_in_place c10cfg).1,
   (c10_config_mutated_in_place c10cfg).2.1 (by decide),
   (c10_config_mutated_in_place c10cfg).2.2.1 (by decide),
   (c10_config_mutated_in_place c10cfg).2.2.2.1 (by decide),
   (c10_config_mutated_in_place c10cfg).2.2.2.2.1 (by decide),
   (c10_config_mutated_in_place c10cfg).2.2.2.2.2.1 (by decide),
   (c10_config_mutated_in_place c10cfg).2.2.2.2.2.2.1 (by decide),
   (c10_config_mutated_in_place c10cfg).2.2.2.2.2.2.2.1 (by decide),
   (c10_config_mutated_in_place c10cfg).2.2.2.2.2.2.2.2⟩

/-- C8: the nested part's encoder selection is total and two-valued: the
name "console" yields the human-readable console encoder, any other
name yields the machine-readable JSON encoder, and an empty configured
format name is first defaulted (to "json") and then also yields the
JSON encoder. -/
theorem c8_encoder_selection (types : String) (config : V1.PzlogConfig)
    (hc : config.Encoder = "") :
    (V1.getEncoder types = V1.getEncoder "console" ∨ V1.getEncoder types = V1.getEncoder "json")
    ∧ ((V1.getEncoder types).kind = .console ↔ types = "console")
    ∧ ((V1.getEncoder types).kind = .json ↔ types ≠ "console")
    ∧ V1.getEncoder (V1.setDefaultValue config).Encoder = V1.getEncoder "json" := by
  have hE : (V1.setDefaultValue config).Encoder = "json" := by
    rw [v1_norm]; exact if_pos hc
  rw [hE]
  by_cases ht : types = "console"
  · subst ht
    refine ⟨Or.inl rfl, ?_, ?_, rfl⟩
    · simp [V1.getEncoder, NewConsoleEncoder]
    · simp [V1.getEncoder, NewConsoleEncoder]
  · refine ⟨Or.inr ?_, ?_, ?_, rfl⟩
    · simp [V1.getEncoder, ht]
    · simp [V1.getEncoder, ht, NewJSONEncoder]
    · simp [V1.getEncoder, ht, NewJSONEncoder]

/-- C8 witness: an unrecognized format name ("xml") and a configuration
with an empty format name both resolve to the JSON encoder. -/
theorem c8_encoder_selection_witness :
    V1.NewDefaultConfig.Encoder = ""
    ∧ ((V1.getEncoder "xml" = V1.getEncoder "console"
          ∨ V1.getEncoder "xml" = V1.getEncoder "json")
       ∧ ((V1.getEncoder "xml").kind = .console ↔ "xml" = "console")
       ∧ ((V1.getEncoder "xml").kind = .json ↔ "xml" ≠ "console")
       ∧ V1.getEncoder (V1.setDefaultValue V1.NewDefaultConfig).Encoder
           = V1.getEncoder "json") :=
  ⟨rfl, c8_encoder_selection "xml" V1.NewDefaultConfig rfl⟩

/-- C2: both encoder variants render the record timestamp with the fixed
package constant logTmFmt, not with the configuration's TimeFormat
field.  At the concrete configuration `c2cfg` (whose TimeFormat
"15:04:05" survives normalization) the encoded timestamp of the instant
`t2021` differs from what rendering with the TimeFormat field would
produce, refuting the claim; the TimeFormat field is normalized but
never read by any encoder. -/
theorem c2_timeformat_not_used :
    (V1.setDefaultValue c2cfg).TimeFormat = "15:04:05"
    ∧ (V1.getEncoder "console").cfg.EncodeTime = V1.cEncodeTime
    ∧ (V1.getEncoder "json").cfg.EncodeTime = V1.cEncodeTime
    ∧ V2.getEncoder.cfg.EncodeTime = V2.cEncodeTime
    ∧ V1.cEncodeTime t2021 = goFormat logTmFmt t2021
    ∧ V2.cEncodeTime t2021 = "[" ++ goFormat logTmFmt t2021 ++ "]"
    ∧ V1.cEncodeTime t2021 ≠ goFormat (V1.setDefaultValue c2cfg).TimeFormat t2021
    ∧ V2.cEncodeTime t2021
        ≠ "[" ++ goFormat (V1.setDefaultValue c2cfg).TimeFormat t2021 ++ "]" := by
  refine ⟨by decide, rfl, rfl, rfl, rfl, rfl, by decide, by decide⟩

/-- C1 counterexample: in the nested part, the two cores of the console
fan-out are given the same encoder (the console-specific encoder
construction is commented out in the source), so at the concrete
configuration `c1cfgNested` the file core and the console core do not
use independent encoders: both carry the encoder selected for the file
(the JSON encoder here), and console output cannot be encoded per a
console-specific format. -/
theorem c1_shared_encoder_counterexample :
    (V1.GetLogger (some c1cfgNested)).1.core.map IoCore.enc =
      [V1.getEncoder "json", V1.getEncoder "json"] := rfl

/-- C1 (amended): with console echo requested, both parts compose a
fan-out of exactly two cores — the file core and the locked-stdout
core, both gated by the same configured minimum level — and every
record at or above that level is delivered (encoded and written) to
both sinks.  In the flattened part the two cores use independent,
distinct encoders; in the nested part both cores share the single
encoder selected by the format name. -/
theorem c1_fanout_both_sinks
    (cN : V1.PzlogConfig) (hN : cN.PrintConsole = true) (lvlN : Level)
    (eN : Level.enabled (V1.getLevelEnabler (V1.setDefaultValue cN)) lvlN = true)
    (cF : V2.PzlogConfig) (hF : cF.PrintConsole = true) (lvlF : Level)
    (eF : Level.enabled (V2.getLevelEnabler (V2.setDefaultValue cF)) lvlF = true) :
    deliverTo (V1.GetLogger (some cN)).1.core lvlN =
      [(V1.getEncoder (V1.setDefaultValue cN).Encoder,
        V1.getWriteSyncer (V1.setDefaultValue cN)),
       (V1.getEncoder (V1.setDefaultValue cN).Encoder, Lock .stdout)]
    ∧ deliverTo (V2.GetLogger (some cF)).1.core lvlF =
      [(V2.getEncoder, V2.GetWriteSyncer (V2.setDefaultValue cF)),
       (V2.getConsoleEncoder, Lock .stdout)]
    ∧ V2.getEncoder ≠ V2.getConsoleEncoder := by
  have hpN : (V1.setDefaultValue cN).PrintConsole = true := by
    rw [v1_norm]; exact hN
  have hpF : (V2.setDefaultValue cF).PrintConsole = true := by
    rw [v2_norm]; exact hF
  refine ⟨?_, ?_, ?_⟩
  · simp only [V1.GetLogger]
    generalize hG : V1.setDefaultValue cN = s at hpN eN ⊢
    simp [hpN, deliverTo, NewTee, NewCore, eN]
  · simp only [V2.GetLogger]
    generalize hG : V2.setDefaultValue cF = s at hpF eF ⊢
    simp [hpF, deliverTo, NewTee, NewCore, eF]
  · intro hEq
    have hT := congrArg (fun e => e.cfg.TimeKey) hEq
    simp [V2.getEncoder, V2.getConsoleEncoder, NewConsoleEncoder,
      NewDevelopmentEncoderConfig] at hT

/-- C1 witness: at the concrete console-echo configurations, an info
record is delivered to both the file sink and the locked stdout sink in
both parts, and the flattened part's two encoders are distinct. -/
theorem c1_fanout_both_sinks_witness :
    c1cfgNested.PrintConsole = true
    ∧ Level.enabled (V1.getLevelEnabler (V1.setDefaultValue c1cfgNested)) .info = true
    ∧ c1cfgFlat.PrintConsole = true
    ∧ Level.enabled (V2.getLevelEnabler (V2.setDefaultValue c1cfgFlat)) .info = true
    ∧ (deliverTo (V1.GetLogger (some c1cfgNested)).1.core .info =
        [(V1.getEncoder (V1.setDefaultValue c1cfgNested).Encoder,
          V1.getWriteSyncer (V1.setDefaultValue c1cfgNested)),
         (V1.getEncoder (V1.setDefaultValue c1cfgNested).Encoder, Lock .stdout)]
       ∧ deliverTo (V2.GetLogger (some c1cfgFlat)).1.core .info =
        [(V2.getEncoder, V2.GetWriteSyncer (V2.setDefaultValue c1cfgFlat)),
         (V2.getConsoleEncoder, Lock .stdout)]
       ∧ V2.getEncoder ≠ V2.getConsoleEncoder) :=
  ⟨rfl, by decide, rfl, by decide,
   c1_fanout_both_sinks c1cfgNested rfl .info (by decide) c1cfgFlat rfl .info (by decide)⟩

/-- C4: the middleware captures path and raw query before invoking the
downstream continuation, waits for it synchronously (the final context
is exactly the continuation's result), and emits exactly one record at
info severity whose message is the pre-continuation request path and
whose fields are the response status, method, pre-continuation path and
query, client IP, user agent, the joined private-error text, and the
elapsed duration. -/
theorem c4_middleware_one_record (next : GinContext → GinContext) (c : GinContext) :
    (GinLogger next c).1 = next c
    ∧ (GinLogger next c).2.length = 1
    ∧ ∀ e ∈ (GinLogger next c).2,
        e.level = .info
        ∧ e.msg = c.Request.Path
        ∧ e.field "status" = some (.int (next c).Status)
        ∧ e.field "method" = some (.str (next c).Request.Method)
        ∧ e.field "path" = some (.str c.Request.Path)
        ∧ e.field "query" = some (.str c.Request.RawQuery)
        ∧ e.field "ip" = some (.str (next c).ClientIP)
        ∧ e.field "user-agent" = some (.str (next c).Request.UserAgent)
        ∧ e.field "errors" =
            some (.str (errorMsgsString (errorsByType ErrorTypePrivate (next c).Errors)))
        ∧ e.field "cost" = some (.duration ((next c).now - c.now)) := by
  refine ⟨rfl, rfl, ?_⟩
  intro e he
  simp only [GinLogger, List.mem_singleton] at he
  subst he
  exact ⟨rfl, rfl, rfl, rfl, rfl, rfl, rfl, rfl, rfl, rfl⟩

/-- C4 witness: for the concrete context `c4ctx` under the continuation
`c4next` (which mutates the routed path, sets status 404, attaches one
private error and advances the clock by 12ms), the emitted record is
exactly `c4entry`: info severity, message and path field from the
original request, mutated data read after the continuation. -/
theorem c4_middleware_one_record_witness :
    c4entry ∈ (GinLogger c4next c4ctx).2
    ∧ (c4entry.level = .info
       ∧ c4entry.msg = c4ctx.Request.Path
       ∧ c4entry.field "status" = some (.int (c4next c4ctx).Status)
       ∧ c4entry.field "method" = some (.str (c4next c4ctx).Request.Method)
       ∧ c4entry.field "path" = some (.str c4ctx.Request.Path)
       ∧ c4entry.field "query" = some (.str c4ctx.Request.RawQuery)
       ∧ c4entry.field "ip" = some (.str (c4next c4ctx).ClientIP)
       ∧ c4entry.field "user-agent" = some (.str (c4next c4ctx).Request.UserAgent)
       ∧ c4entry.field "errors" =
           some (.str (errorMsgsString (errorsByType ErrorTypePrivate (c4next c4ctx).Errors)))
       ∧ c4entry.field "cost" = some (.duration ((c4next c4ctx).now - c4ctx.now))) :=
  ⟨by decide, (c4_middleware_one_record c4next c4ctx).2.2 c4entry (by decide)⟩

end Pzlog
